import Mathlib

/-!
Verification development for the Centure TypeScript SDK MCP transport
(`CentureMCPClientTransport` and its helpers).  JavaScript values that the
transport manipulates structurally are modelled by a small JSON value type;
property access, truthiness and `JSON.stringify` are modelled explicitly.
-/

/-- A JSON value as manipulated by the TypeScript source.  Numbers are
modelled as integers (every numeric literal the claims exercise is an
integer). -/
inductive Json where
  | null : Json
  | bool (b : Bool) : Json
  | num (n : Int) : Json
  | str (s : String) : Json
  | arr (elems : List Json) : Json
  | obj (fields : List (String × Json)) : Json

/-- First-match lookup of a key among an object's fields. -/
def lookupField : List (String × Json) → String → Option Json
  | [], _ => none
  | (k', v) :: rest, k => if k' = k then some v else lookupField rest k

/-- JavaScript property access `m[k]` returning `none` for `undefined`
(absent key, or access on a non-object). -/
def jsGet : Json → String → Option Json
  | Json.obj fields, k => lookupField fields k
  | _, _ => none

/-- JavaScript property access where `undefined` is collapsed to `null`;
adequate wherever the source only tests the value for truthiness. -/
def jsMember (m : Json) (k : String) : Json :=
  (jsGet m k).getD Json.null

/-- JavaScript truthiness of a JSON value. -/
def Json.truthy : Json → Bool
  | Json.null => false
  | Json.bool b => b
  | Json.num n => !(n == 0)
  | Json.str s => !(s == "")
  | Json.arr _ => true
  | Json.obj _ => true

/-- String escaping for one character, as performed by `JSON.stringify`. -/
def jsonEscapeChar (c : Char) : String :=
  if c = '"' then "\\\""
  else if c = '\\' then "\\\\"
  else if c = '\n' then "\\n"
  else if c = '\t' then "\\t"
  else if c = '\r' then "\\r"
  else String.singleton c

/-- String escaping as performed by `JSON.stringify`. -/
def jsonEscape (s : String) : String :=
  String.join (s.data.map jsonEscapeChar)

/-- ASCII lower-casing of one character, modelling
`String.prototype.toLowerCase` on the ASCII MIME strings it is applied to. -/
def asciiLowerChar (c : Char) : Char :=
  if 'A' ≤ c ∧ c ≤ 'Z' then Char.ofNat (c.toNat + 32) else c

/-- ASCII lower-casing of a string. -/
def asciiLower (s : String) : String :=
  String.mk (s.data.map asciiLowerChar)

/-- Whitespace predicate used by `trimWs`. -/
def isWsChar (c : Char) : Bool :=
  c = ' ' || c = '\t' || c = '\n' || c = '\r'

/-- Leading and trailing whitespace removal, modelling
`String.prototype.trim`. -/
def trimWs (s : String) : String :=
  String.mk (((s.data.dropWhile isWsChar).reverse.dropWhile isWsChar).reverse)

mutual

/-- `JSON.stringify` on the modelled JSON values. -/
def Json.stringify : Json → String
  | Json.null => "null"
  | Json.bool b => if b then "true" else "false"
  | Json.num n => toString n
  | Json.str s => "\"" ++ jsonEscape s ++ "\""
  | Json.arr xs => "[" ++ stringifyElems xs ++ "]"
  | Json.obj fs => "\x7b" ++ stringifyFields fs ++ "\x7d"

/-- Comma-separated serialization of array elements. -/
def stringifyElems : List Json → String
  | [] => ""
  | [x] => Json.stringify x
  | x :: y :: rest => Json.stringify x ++ "," ++ stringifyElems (y :: rest)

/-- Comma-separated serialization of object fields. -/
def stringifyFields : List (String × Json) → String
  | [] => ""
  | [(k, v)] => "\"" ++ jsonEscape k ++ "\":" ++ Json.stringify v
  | (k, v) :: f :: rest =>
      "\"" ++ jsonEscape k ++ "\":" ++ Json.stringify v ++ "," ++ stringifyFields (f :: rest)

end

/-- The `IMAGE_MIME_TYPES` constant from `src/utils/is-image.ts`. -/
def imageMimeTypes : List String :=
  ["image/png", "image/jpeg", "image/jpg", "image/gif", "image/webp"]

/-- `isImageMimeType` from `src/utils/is-image.ts`: falsy values are rejected,
then the lower-cased, trimmed MIME string is matched against the supported
image types.  The TypeScript signature restricts the argument to
`string | undefined`, so non-string values (never produced by the callers
the claims exercise) are not recognized. -/
def isImageMimeType (mimeType : Json) : Bool :=
  match mimeType with
  | Json.str s => if s = "" then false else imageMimeTypes.contains (trimWs (asciiLower s))
  | _ => false

/-- `ServiceTier` string enum from `src/types.ts`. -/
inductive ServiceTier where
  | low : ServiceTier
  | standard : ServiceTier
  | dedicated : ServiceTier
deriving DecidableEq

/-- `DetectedCategory` from `src/types.ts`; the threat-category and
confidence enums are string-valued in TypeScript and are modelled by their
wire strings. -/
structure DetectedCategory where
  code : String
  confidence : String
deriving DecidableEq

/-- `ScanResponse` from `src/types.ts` (the shape consumed by the MCP
transport). -/
structure ScanResponse where
  is_safe : Bool
  categories : List DetectedCategory
  request_id : String
  api_key_id : String
  request_units : Int
  service_tier : ServiceTier
deriving DecidableEq

/-- JavaScript `x || ""` applied to an optional string (`undefined` and the
empty string both collapse to the default `""`). -/
def jsOrEmpty : Option String → String
  | some s => if s = "" then "" else s
  | none => ""

/-- The fold of per-fragment scan results into the combined scan result, as
computed inline in the `onmessage` handler: unsafe if any result is unsafe,
categories concatenated with `flatMap`, request units summed with `reduce`,
and identifying metadata plus service tier read from `scanResults[0]` with
the source defaults (`|| ""`, `|| "standard"`) for the undefined case. -/
def combineScanResults (results : List ScanResponse) : ScanResponse :=
  { is_safe := !(results.any fun r => !r.is_safe)
    categories := results.flatMap fun r => r.categories
    request_id := jsOrEmpty (results.head?.map fun r => r.request_id)
    api_key_id := jsOrEmpty (results.head?.map fun r => r.api_key_id)
    request_units := results.foldl (fun sum r => sum + r.request_units) 0
    service_tier := (results.head?.map fun r => r.service_tier).getD ServiceTier.standard }

/-- Serialization of a `DetectedCategory` list to JSON, as it appears inside
the synthesized error responses. -/
def categoriesJson (cats : List DetectedCategory) : Json :=
  Json.arr (cats.map fun c =>
    Json.obj [("code", Json.str c.code), ("confidence", Json.str c.confidence)])

/-- `CENTURE_SECURITY_VIOLATION_ERROR` from `src/mcp/client-transport.ts`. -/
def centureSecurityViolationError : Int := -32001

/-- The `data` payload carried by every synthesized security-block error. -/
def securityBlockData (sr : ScanResponse) : Json :=
  Json.obj [("categories", categoriesJson sr.categories),
            ("reason", Json.str "Unsafe content detected")]

/-- The `code`/`message`/`data` body shared by the two synthesized error
formats of `createErrorResponse`. -/
def securityBlockBody (sr : ScanResponse) : Json :=
  Json.obj [("code", Json.num centureSecurityViolationError),
            ("message", Json.str "Message blocked by Centure security scan"),
            ("data", securityBlockData sr)]

/-- `CentureMCPClientTransport.createErrorResponse`: for `tools/call` a
normal response whose result carries `isError` and a serialized error body;
for every other method a standard JSON-RPC error response. -/
def createErrorResponse (requestId : Json) (method : Option Json) (sr : ScanResponse) : Json :=
  match method with
  | some (Json.str "tools/call") =>
      Json.obj [("jsonrpc", Json.str "2.0"), ("id", requestId),
        ("result", Json.obj [("isError", Json.bool true),
          ("content", Json.arr [Json.obj [("type", Json.str "text"),
            ("text", Json.str (Json.stringify (securityBlockBody sr)))]])])]
  | _ =>
      Json.obj [("jsonrpc", Json.str "2.0"), ("id", requestId),
        ("error", securityBlockBody sr)]

/-- The string value of an item `type` field, when it is a string; the
strict equality `item.type === "sometype"` of the source holds exactly when
this value is `some "sometype"`. -/
def typeOf (item : Json) : Option String :=
  match jsMember item "type" with
  | Json.str s => some s
  | _ => none

/-- The per-item loop of `extractContentForScanning` over a result content
array: text items with truthy `text` contribute text fragments, image items
with truthy `data` contribute image fragments, resource items with a truthy
`blob` and a recognized image MIME type contribute image fragments, and all
other items are ignored. -/
def extractItems : List Json → List Json × List Json
  | [] => ([], [])
  | item :: rest =>
      let acc := extractItems rest
      if typeOf item = some "text" ∧ (jsMember item "text").truthy = true then
        (jsMember item "text" :: acc.1, acc.2)
      else if typeOf item = some "image" ∧ (jsMember item "data").truthy = true then
        (acc.1, jsMember item "data" :: acc.2)
      else if typeOf item = some "resource"
          ∧ (jsMember (jsMember item "resource") "blob").truthy = true
          ∧ isImageMimeType (jsMember (jsMember item "resource") "mimeType") = true then
        (acc.1, jsMember (jsMember item "resource") "blob" :: acc.2)
      else acc

/-- The params fallback of `extractContentForScanning`: a truthy `params`
value is serialized into one text fragment, otherwise nothing is scanned. -/
def extractFromParams (message : Json) : List Json × List Json :=
  match jsGet message "params" with
  | some p => if p.truthy then ([Json.str (Json.stringify p)], []) else ([], [])
  | none => ([], [])

/-- The result branch of `extractContentForScanning`: a truthy result is
inspected — a content array is walked item by item, truthy (non-empty)
string content becomes one text fragment, and any other content shape falls
back to serializing the whole result; a falsy result defers to the params
fallback. -/
def resultStep (r : Json) (message : Json) : List Json × List Json :=
  if r.truthy then
    match jsGet r "content" with
    | some (Json.arr items) => extractItems items
    | some (Json.str s) =>
        if s = "" then ([Json.str (Json.stringify r)], []) else ([Json.str s], [])
    | _ => ([Json.str (Json.stringify r)], [])
  else extractFromParams message

/-- `CentureMCPClientTransport.extractContentForScanning`: a truthy result
is inspected (content array, non-empty string content, or whole-result
serialization fallback); otherwise a truthy params payload is serialized. -/
def extractContentForScanning (message : Json) : List Json × List Json :=
  match jsGet message "result" with
  | some r => resultStep r message
  | none => extractFromParams message

/-- A value thrown by JavaScript code: either an `Error` instance (carrying
its message) or an arbitrary non-`Error` value. -/
inductive Thrown where
  | errorInstance (message : String) : Thrown
  | nonError (value : Json) : Thrown

/-- `instanceof Error`, as tested by the catch block of the `onmessage`
handler. -/
def Thrown.isErrorInstance : Thrown → Bool
  | Thrown.errorInstance _ => true
  | Thrown.nonError _ => false

/-- `OnAfterScanResult` from `src/mcp/client-transport.ts`. -/
structure OnAfterScanResult where
  passthrough : Bool

/-- `OnUnsafeMessageResult` from `src/mcp/client-transport.ts`. -/
structure OnUnsafeMessageResult where
  passthrough : Bool
  replace : Option Json

/-- The three optional hooks of `CentureMCPClientTransportOptions`.  Each
hook is a function of the inbound message (and, for the two later stages,
the combined scan result) that either returns its result or throws. -/
structure CentureHooks where
  shouldScanMessage : Option (Json → Except Thrown Bool)
  onAfterScan : Option (Json → ScanResponse → Except Thrown OnAfterScanResult)
  onUnsafeMessage : Option (Json → ScanResponse → Except Thrown OnUnsafeMessageResult)

/-- The scan client consumed by the transport: `scanText` and `scanImage`,
each of which either returns a `ScanResponse` or fails. -/
structure ScanClient where
  scanText : Json → Except Thrown ScanResponse
  scanImage : Json → Except Thrown ScanResponse

/-- `Promise.all` over already-dispatched scan calls: succeeds with all
results in dispatch order, or fails with the first failure. -/
def sequenceExcept : List (Except Thrown ScanResponse) → Except Thrown (List ScanResponse)
  | [] => Except.ok []
  | Except.error e :: _ => Except.error e
  | Except.ok r :: rest =>
      match sequenceExcept rest with
      | Except.error e => Except.error e
      | Except.ok rs => Except.ok (r :: rs)

/-- The scan dispatch of the `onmessage` handler: one `scanText` call per
text fragment, then one `scanImage` call per image fragment, awaited
together. -/
def scanAll (client : ScanClient) (texts images : List Json) : Except Thrown (List ScanResponse) :=
  sequenceExcept (texts.map client.scanText ++ images.map client.scanImage)

/-- The default block-or-drop resolution for an unsafe message: a message
carrying an `id` is answered with `createErrorResponse`, any other message
is dropped. -/
def resolveUnsafeDefault (msg : Json) (combined : ScanResponse) : List Json :=
  match jsGet msg "id" with
  | some idv => [createErrorResponse idv (jsGet msg "method") combined]
  | none => []

/-- Interpretation of an `onUnsafeMessage` hook result: passthrough forwards
the replacement or else the original, a bare replacement is forwarded, and
otherwise the default block-or-drop resolution applies. -/
def applyUnsafeResult (msg : Json) (combined : ScanResponse) (r : OnUnsafeMessageResult) : List Json :=
  if r.passthrough then [r.replace.getD msg]
  else
    match r.replace with
    | some rep => [rep]
    | none => resolveUnsafeDefault msg combined

/-- Outcome of the post-scan policy stages: the messages forwarded to the
application (at most one), whether the unsafe-message hook was invoked, and
the exception if a hook threw. -/
structure StageOut where
  forwarded : List Json
  unsafeInvoked : Bool
  exn : Option Thrown

/-- Resumption of the unsafe-message stage once the hook call has settled:
a throwing hook propagates its exception, a returning hook has its result
interpreted by `applyUnsafeResult`. -/
def unsafeHookStep (res : Except Thrown OnUnsafeMessageResult) (msg : Json)
    (combined : ScanResponse) : StageOut :=
  match res with
  | Except.error e => { forwarded := [], unsafeInvoked := true, exn := some e }
  | Except.ok r =>
      { forwarded := applyUnsafeResult msg combined r, unsafeInvoked := true, exn := none }

/-- Stage 4 of the `onmessage` handler (unsafe-message resolution). -/
def unsafeStage (hooks : CentureHooks) (msg : Json) (combined : ScanResponse) : StageOut :=
  match hooks.onUnsafeMessage with
  | some h => unsafeHookStep (h msg combined) msg combined
  | none => { forwarded := resolveUnsafeDefault msg combined, unsafeInvoked := false, exn := none }

/-- Stage 3 of the `onmessage` handler (`onAfterScan`): `ok true` means the
hook requested passthrough, `ok false` means continue. -/
def afterScanStage (hooks : CentureHooks) (msg : Json) (combined : ScanResponse) : Except Thrown Bool :=
  match hooks.onAfterScan with
  | some h =>
      match h msg combined with
      | Except.error e => Except.error e
      | Except.ok r => Except.ok r.passthrough
  | none => Except.ok false

/-- Stages 3 and 4 of the `onmessage` handler combined: after-scan
passthrough forwards the original, a safe combined verdict forwards the
original, and an unsafe one is resolved by `unsafeStage`. -/
def dispositionStage (hooks : CentureHooks) (msg : Json) (combined : ScanResponse) : StageOut :=
  match afterScanStage hooks msg combined with
  | Except.error e => { forwarded := [], unsafeInvoked := false, exn := some e }
  | Except.ok true => { forwarded := [msg], unsafeInvoked := false, exn := none }
  | Except.ok false =>
      if combined.is_safe then { forwarded := [msg], unsafeInvoked := false, exn := none }
      else unsafeStage hooks msg combined

/-- Everything observable about one run of the `onmessage` handler: the
messages delivered to the application's callback in order, whether the
content extractor ran, the scan-call arguments in dispatch order, whether
the unsafe-message hook ran, the errors surfaced through the adapter error
callback, and the exception re-raised out of the handler, if any. -/
structure RunTrace where
  forwarded : List Json
  extractInvoked : Bool
  scanTextCalls : List Json
  scanImageCalls : List Json
  unsafeHookInvoked : Bool
  onerrorCalls : List Thrown
  raised : Option Thrown

/-- The catch block of the `onmessage` handler: only `Error` instances are
surfaced through the adapter error callback; every thrown value is
re-raised. -/
def catchCalls (e : Thrown) : List Thrown :=
  if e.isErrorInstance then [e] else []

/-- Steps 2 to 4 of the `onmessage` handler, reached when the pre-scan gate
allowed scanning: extract fragments, pass empty-content messages straight
through, otherwise scan every fragment and run the policy stages. -/
def scanPipeline (hooks : CentureHooks) (client : ScanClient) (msg : Json) : RunTrace :=
  if ((extractContentForScanning msg).1.isEmpty && (extractContentForScanning msg).2.isEmpty) then
    { forwarded := [msg], extractInvoked := true, scanTextCalls := [], scanImageCalls := [],
      unsafeHookInvoked := false, onerrorCalls := [], raised := none }
  else
    match scanAll client (extractContentForScanning msg).1 (extractContentForScanning msg).2 with
    | Except.error e =>
        { forwarded := [], extractInvoked := true,
          scanTextCalls := (extractContentForScanning msg).1,
          scanImageCalls := (extractContentForScanning msg).2,
          unsafeHookInvoked := false, onerrorCalls := catchCalls e, raised := some e }
    | Except.ok results =>
        let out := dispositionStage hooks msg (combineScanResults results)
        { forwarded := out.forwarded, extractInvoked := true,
          scanTextCalls := (extractContentForScanning msg).1,
          scanImageCalls := (extractContentForScanning msg).2,
          unsafeHookInvoked := out.unsafeInvoked,
          onerrorCalls := match out.exn with | some e => catchCalls e | none => [],
          raised := out.exn }

/-- Resumption of the `onmessage` handler once the pre-scan gate call has
settled: a throwing gate propagates its exception through the catch block, a
false result forwards the message unscanned, and a true result runs the
scanning pipeline. -/
def gateStep (res : Except Thrown Bool) (hooks : CentureHooks) (client : ScanClient)
    (msg : Json) : RunTrace :=
  match res with
  | Except.error e =>
      { forwarded := [], extractInvoked := false, scanTextCalls := [], scanImageCalls := [],
        unsafeHookInvoked := false, onerrorCalls := catchCalls e, raised := some e }
  | Except.ok sc =>
      if sc then scanPipeline hooks client msg
      else
        { forwarded := [msg], extractInvoked := false, scanTextCalls := [], scanImageCalls := [],
          unsafeHookInvoked := false, onerrorCalls := [], raised := none }

/-- One run of the `onmessage` handler installed by
`CentureMCPClientTransport.start` on an inbound message, including the
pre-scan gate and the surrounding try/catch. -/
def handleMessage (hooks : CentureHooks) (client : ScanClient) (msg : Json) : RunTrace :=
  match hooks.shouldScanMessage with
  | some gate => gateStep (gate msg) hooks client msg
  | none => scanPipeline hooks client msg

/-- A hook configuration with no hooks installed. -/
def noHooks : CentureHooks :=
  { shouldScanMessage := none, onAfterScan := none, onUnsafeMessage := none }

/-- A scan client returning the same verdict for every fragment. -/
def constClient (r : ScanResponse) : ScanClient :=
  { scanText := fun _ => Except.ok r, scanImage := fun _ => Except.ok r }

/-- A scan client failing every call with the same thrown value. -/
def failingClient (e : Thrown) : ScanClient :=
  { scanText := fun _ => Except.error e, scanImage := fun _ => Except.error e }

/-- An unsafe verdict with one detected category. -/
def unsafeVerdict : ScanResponse :=
  { is_safe := false, categories := [{ code := "data_exfiltration", confidence := "high" }],
    request_id := "req-1", api_key_id := "key-1", request_units := 1,
    service_tier := ServiceTier.standard }

/-- A safe verdict. -/
def safeVerdict : ScanResponse :=
  { is_safe := true, categories := [], request_id := "req-2", api_key_id := "key-2",
    request_units := 1, service_tier := ServiceTier.standard }

/-- A response message (carrying a correlation identifier) with string
content. -/
def sampleResponse : Json :=
  Json.obj [("jsonrpc", Json.str "2.0"), ("id", Json.num 3),
            ("result", Json.obj [("content", Json.str "payload")])]

/-- A notification message (no correlation identifier). -/
def sampleNotification : Json :=
  Json.obj [("jsonrpc", Json.str "2.0"), ("method", Json.str "notifications/progress"),
            ("params", Json.obj [("stage", Json.str "x")])]

/-- A request message invoking a tool. -/
def sampleRequest : Json :=
  Json.obj [("jsonrpc", Json.str "2.0"), ("id", Json.num 7), ("method", Json.str "tools/call"),
            ("params", Json.obj [("name", Json.str "get-data")])]

/-- The pre-scan gate does not stop the message: the hook is absent, or it
returns true for this message. -/
def gateAllows (hooks : CentureHooks) (msg : Json) : Prop :=
  ∀ g, hooks.shouldScanMessage = some g → g msg = Except.ok true

/-- The post-scan stage does not short-circuit: the hook is absent, or it
returns passthrough false for this message and verdict. -/
def afterScanContinues (hooks : CentureHooks) (msg : Json) (combined : ScanResponse) : Prop :=
  ∀ h, hooks.onAfterScan = some h → h msg combined = Except.ok { passthrough := false }

/-- The unsafe-message hook, when present, blocks without a replacement. -/
def unsafeHookBlocksWithoutReplace (hooks : CentureHooks) (msg : Json) (combined : ScanResponse) : Prop :=
  ∀ h, hooks.onUnsafeMessage = some h →
    h msg combined = Except.ok { passthrough := false, replace := none }

/-- Every `result` value carried by the message is falsy (in particular, the
message may carry no `result` at all). -/
def resultFalsyOrAbsent (msg : Json) : Prop :=
  ∀ r, jsGet msg "result" = some r → r.truthy = false

/-- Every `params` value carried by the message is falsy (in particular, the
message may carry no `params` at all). -/
def paramsFalsyOrAbsent (msg : Json) : Prop :=
  ∀ p, jsGet msg "params" = some p → p.truthy = false

/-- Per-item text-fragment extraction rule of the content-array loop: a
text-typed item with a truthy (non-empty) text value yields that value. -/
def textFragOfItem (item : Json) : Option Json :=
  if typeOf item = some "text" ∧ (jsMember item "text").truthy = true then
    some (jsMember item "text")
  else none

/-- Per-item image-fragment extraction rule of the content-array loop: an
image-typed item with a truthy data value yields that value, and a
resource-typed item with a truthy blob and a recognized image MIME type
yields the blob. -/
def imageFragOfItem (item : Json) : Option Json :=
  if typeOf item = some "image" ∧ (jsMember item "data").truthy = true then
    some (jsMember item "data")
  else if typeOf item = some "resource"
      ∧ (jsMember (jsMember item "resource") "blob").truthy = true
      ∧ isImageMimeType (jsMember (jsMember item "resource") "mimeType") = true then
    some (jsMember (jsMember item "resource") "blob")
  else none

/-- A content-array item of type text whose text field is the empty string. -/
def emptyTextItem : Json :=
  Json.obj [("type", Json.str "text"), ("text", Json.str "")]

/-- A content-array item of type image whose data field is the empty string. -/
def emptyImageItem : Json :=
  Json.obj [("type", Json.str "image"), ("data", Json.str "")]

/-- Hooks whose pre-scan gate rejects every message. -/
def gateFalseHooks : CentureHooks :=
  { shouldScanMessage := some (fun _ => Except.ok false),
    onAfterScan := none, onUnsafeMessage := none }

/-- Hooks whose pre-scan gate throws a non-Error value. -/
def throwingGateHooks : CentureHooks :=
  { shouldScanMessage := some (fun _ => Except.error (Thrown.nonError (Json.str "boom"))),
    onAfterScan := none, onUnsafeMessage := none }

/-- Hooks whose post-scan hook requests passthrough while an unsafe-message
hook is also installed. -/
def afterTrueHooks : CentureHooks :=
  { shouldScanMessage := none,
    onAfterScan := some (fun _ _ => Except.ok { passthrough := true }),
    onUnsafeMessage := some (fun _ _ => Except.ok { passthrough := false, replace := none }) }

/-- A response whose content array holds one text item with an empty text
field. -/
def emptyTextMessage : Json :=
  Json.obj [("jsonrpc", Json.str "2.0"), ("id", Json.num 9),
            ("result", Json.obj [("content", Json.arr [emptyTextItem])])]

/-- A response whose content array holds only empty-string text and image
items. -/
def allEmptyItemsMessage : Json :=
  Json.obj [("jsonrpc", Json.str "2.0"), ("id", Json.num 2),
            ("result", Json.obj [("content", Json.arr [emptyTextItem, emptyImageItem])])]

/-- A mixed content array: one text item, one image item, one image
resource item, and one unrecognised item. -/
def mixedContentItems : List Json :=
  [Json.obj [("type", Json.str "text"), ("text", Json.str "hi")],
   Json.obj [("type", Json.str "image"), ("data", Json.str "img64")],
   Json.obj [("type", Json.str "resource"),
             ("resource", Json.obj [("blob", Json.str "b64"),
                                    ("mimeType", Json.str "image/png")])],
   Json.obj [("type", Json.str "audio"), ("data", Json.str "a")]]

/-- A result object holding the mixed content array. -/
def mixedContentResult : Json :=
  Json.obj [("content", Json.arr mixedContentItems)]

/-- A response carrying the mixed content array. -/
def mixedContentMessage : Json :=
  Json.obj [("jsonrpc", Json.str "2.0"), ("id", Json.num 4),
            ("result", mixedContentResult)]

lemma jsOrEmpty_some (s : String) : jsOrEmpty (some s) = s := by
  rw [show jsOrEmpty (some s) = if s = "" then "" else s from rfl]
  by_cases h : s = ""
  · rw [if_pos h, h]
  · rw [if_neg h]

lemma foldl_request_units (l : List ScanResponse) (init : Int) :
    l.foldl (fun sum r => sum + r.request_units) init =
      init + (l.map (fun r => r.request_units)).sum := by
  induction l generalizing init with
  | nil => simp
  | cons x xs ih => simp [ih, add_assoc]

/-- C2: for a non-empty list of fragment verdicts in dispatch order, the
combined verdict's safety flag is the conjunction of the fragments' flags,
its categories are the concatenation of the fragments' category lists in
order with duplicates retained, its request units are the sum of the
fragments' request units, and its request id, api key id and service tier
are taken from the first verdict. -/
theorem c2_combined_verdict (v : ScanResponse) (vs : List ScanResponse) :
    (combineScanResults (v :: vs)).is_safe = (v :: vs).all (fun r => r.is_safe)
    ∧ (combineScanResults (v :: vs)).categories
        = ((v :: vs).map (fun r => r.categories)).flatten
    ∧ (combineScanResults (v :: vs)).request_units
        = ((v :: vs).map (fun r => r.request_units)).sum
    ∧ (combineScanResults (v :: vs)).request_id = v.request_id
    ∧ (combineScanResults (v :: vs)).api_key_id = v.api_key_id
    ∧ (combineScanResults (v :: vs)).service_tier = v.service_tier := by
  refine ⟨?_, ?_, ?_, ?_, ?_, ?_⟩
  · rw [List.all_eq_not_any_not]
    rfl
  · rw [show (combineScanResults (v :: vs)).categories
        = (v :: vs).flatMap (fun r => r.categories) from rfl, List.flatMap_def]
  · rw [show (combineScanResults (v :: vs)).request_units
        = (v :: vs).foldl (fun sum r => sum + r.request_units) 0 from rfl,
      foldl_request_units]
    simp
  · exact jsOrEmpty_some v.request_id
  · exact jsOrEmpty_some v.api_key_id
  · rfl

/-- C6: a blocked request with method `tools/call` is answered by a normal
response (same correlation identifier) whose result carries the `isError`
flag and an embedded serialized error body; every other method is answered
by a standard JSON-RPC error response whose error object carries the single
reserved code, the fixed block message, and a data payload with the detected
categories and a reason string; the reserved code is the fixed negative
constant -32001, inside the implementation-reserved range. -/
theorem c6_error_synthesis (requestId : Json) (method : Option Json) (sr : ScanResponse) :
    jsGet (createErrorResponse requestId method sr) "id" = some requestId
    ∧ (method = some (Json.str "tools/call") →
        jsGet (createErrorResponse requestId method sr) "error" = none
        ∧ jsGet (createErrorResponse requestId method sr) "result" =
            some (Json.obj [("isError", Json.bool true),
              ("content", Json.arr [Json.obj [("type", Json.str "text"),
                ("text", Json.str (Json.stringify (securityBlockBody sr)))]])]))
    ∧ (method ≠ some (Json.str "tools/call") →
        jsGet (createErrorResponse requestId method sr) "result" = none
        ∧ jsGet (createErrorResponse requestId method sr) "error" = some (securityBlockBody sr))
    ∧ jsGet (securityBlockBody sr) "code" = some (Json.num centureSecurityViolationError)
    ∧ jsGet (securityBlockBody sr) "message"
        = some (Json.str "Message blocked by Centure security scan")
    ∧ jsGet (securityBlockBody sr) "data" = some (securityBlockData sr)
    ∧ jsGet (securityBlockData sr) "categories" = some (categoriesJson sr.categories)
    ∧ jsGet (securityBlockData sr) "reason" = some (Json.str "Unsafe content detected")
    ∧ centureSecurityViolationError = -32001
    ∧ -32099 ≤ centureSecurityViolationError ∧ centureSecurityViolationError ≤ -32000 := by
  refine ⟨?_, ?_, ?_, rfl, rfl, rfl, rfl, rfl, rfl, by decide, by decide⟩
  · unfold createErrorResponse
    split <;> rfl
  · intro h
    rw [h]
    exact ⟨rfl, rfl⟩
  · intro hne
    unfold createErrorResponse
    split
    · exact absurd rfl hne
    · exact ⟨rfl, rfl⟩

/-- Closed instantiation of `c6_error_synthesis` at a blocked tool call and
at a blocked non-tool request. -/
theorem c6_witness :
    jsGet (createErrorResponse (Json.num 7) (some (Json.str "tools/call")) unsafeVerdict)
        "result" =
      some (Json.obj [("isError", Json.bool true),
        ("content", Json.arr [Json.obj [("type", Json.str "text"),
          ("text", Json.str (Json.stringify (securityBlockBody unsafeVerdict)))]])])
    ∧ jsGet (createErrorResponse (Json.num 3) none unsafeVerdict) "error" =
        some (securityBlockBody unsafeVerdict) :=
  ⟨((c6_error_synthesis (Json.num 7) (some (Json.str "tools/call")) unsafeVerdict).2.1 rfl).2,
   ((c6_error_synthesis (Json.num 3) none unsafeVerdict).2.2.1 (fun h => nomatch h)).2⟩

lemma handleMessage_of_gateAllows (hooks : CentureHooks) (client : ScanClient) (msg : Json)
    (hgate : gateAllows hooks msg) :
    handleMessage hooks client msg = scanPipeline hooks client msg := by
  unfold handleMessage
  cases hg : hooks.shouldScanMessage with
  | none => rfl
  | some g => simp [hgate g hg, gateStep]

lemma scanPipeline_extractInvoked (hooks : CentureHooks) (client : ScanClient) (msg : Json) :
    (scanPipeline hooks client msg).extractInvoked = true := by
  unfold scanPipeline
  split
  · rfl
  · split <;> rfl

lemma scanPipeline_of_scanned (hooks : CentureHooks) (client : ScanClient) (msg : Json)
    (results : List ScanResponse)
    (hfrag : ((extractContentForScanning msg).1.isEmpty
        && (extractContentForScanning msg).2.isEmpty) = false)
    (hscan : scanAll client (extractContentForScanning msg).1 (extractContentForScanning msg).2
        = Except.ok results) :
    scanPipeline hooks client msg =
      { forwarded := (dispositionStage hooks msg (combineScanResults results)).forwarded
        extractInvoked := true
        scanTextCalls := (extractContentForScanning msg).1
        scanImageCalls := (extractContentForScanning msg).2
        unsafeHookInvoked := (dispositionStage hooks msg (combineScanResults results)).unsafeInvoked
        onerrorCalls :=
          match (dispositionStage hooks msg (combineScanResults results)).exn with
          | some e => catchCalls e
          | none => []
        raised := (dispositionStage hooks msg (combineScanResults results)).exn } := by
  unfold scanPipeline
  rw [hfrag, hscan]
  rfl

lemma dispositionStage_passthrough (hooks : CentureHooks) (msg : Json) (combined : ScanResponse)
    (h : Json → ScanResponse → Except Thrown OnAfterScanResult)
    (hh : hooks.onAfterScan = some h)
    (hres : h msg combined = Except.ok { passthrough := true }) :
    dispositionStage hooks msg combined =
      { forwarded := [msg], unsafeInvoked := false, exn := none } := by
  unfold dispositionStage afterScanStage
  simp [hh, hres]

lemma dispositionStage_safe (hooks : CentureHooks) (msg : Json) (combined : ScanResponse)
    (hafter : afterScanContinues hooks msg combined)
    (hsafe : combined.is_safe = true) :
    dispositionStage hooks msg combined =
      { forwarded := [msg], unsafeInvoked := false, exn := none } := by
  unfold dispositionStage afterScanStage
  cases hh : hooks.onAfterScan with
  | none => simp [hsafe]
  | some h => simp [hafter h hh, hsafe]

lemma dispositionStage_continue (hooks : CentureHooks) (msg : Json) (combined : ScanResponse)
    (hafter : afterScanContinues hooks msg combined)
    (hunsafeFlag : combined.is_safe = false) :
    dispositionStage hooks msg combined = unsafeStage hooks msg combined := by
  unfold dispositionStage afterScanStage
  cases hh : hooks.onAfterScan with
  | none => simp [hunsafeFlag]
  | some h => simp [hafter h hh, hunsafeFlag]

lemma unsafeStage_blocks (hooks : CentureHooks) (msg : Json) (combined : ScanResponse)
    (hu : unsafeHookBlocksWithoutReplace hooks msg combined) :
    unsafeStage hooks msg combined =
      { forwarded := resolveUnsafeDefault msg combined
        unsafeInvoked := hooks.onUnsafeMessage.isSome
        exn := none } := by
  unfold unsafeStage
  cases hh : hooks.onUnsafeMessage with
  | none => rfl
  | some h => simp [hu h hh, unsafeHookStep, applyUnsafeResult]

/-- C5: a pre-scan gate returning false forwards the message unchanged at
once, with the content extractor never invoked and zero scan calls; an
absent gate lets every inbound message proceed to the extraction and
scanning stage. -/
theorem c5_pre_scan_gate (hooks : CentureHooks) (client : ScanClient) (msg : Json) :
    (∀ g, hooks.shouldScanMessage = some g → g msg = Except.ok false →
      handleMessage hooks client msg =
        { forwarded := [msg], extractInvoked := false, scanTextCalls := [],
          scanImageCalls := [], unsafeHookInvoked := false, onerrorCalls := [],
          raised := none })
    ∧ (hooks.shouldScanMessage = none →
        (handleMessage hooks client msg).extractInvoked = true) := by
  constructor
  · intro g hg hres
    unfold handleMessage
    simp [hg, hres, gateStep]
  · intro hnone
    unfold handleMessage
    rw [hnone]
    exact scanPipeline_extractInvoked hooks client msg

/-- Closed instantiation of `c5_pre_scan_gate`: a gate returning false
passes an unsafe-content response through with no extraction and no scan
calls, and with no gate the extraction stage runs. -/
theorem c5_witness :
    handleMessage gateFalseHooks (constClient unsafeVerdict) sampleResponse =
      { forwarded := [sampleResponse], extractInvoked := false, scanTextCalls := [],
        scanImageCalls := [], unsafeHookInvoked := false, onerrorCalls := [],
        raised := none }
    ∧ (handleMessage noHooks (constClient unsafeVerdict) sampleResponse).extractInvoked = true :=
  ⟨(c5_pre_scan_gate gateFalseHooks (constClient unsafeVerdict) sampleResponse).1
      (fun _ => Except.ok false) rfl rfl,
   (c5_pre_scan_gate noHooks (constClient unsafeVerdict) sampleResponse).2 rfl⟩

/-- C4: when a message was scanned, a post-scan hook returning passthrough
true forwards the original message unchanged and the unsafe-message stage is
never invoked, regardless of the combined verdict; with the post-scan stage
absent or continuing, a safe combined verdict forwards the original message
unchanged without invoking the unsafe-message stage. -/
theorem c4_post_scan_override (hooks : CentureHooks) (client : ScanClient) (msg : Json)
    (results : List ScanResponse)
    (hgate : gateAllows hooks msg)
    (hfrag : ((extractContentForScanning msg).1.isEmpty
        && (extractContentForScanning msg).2.isEmpty) = false)
    (hscan : scanAll client (extractContentForScanning msg).1 (extractContentForScanning msg).2
        = Except.ok results) :
    (∀ h, hooks.onAfterScan = some h →
      h msg (combineScanResults results) = Except.ok { passthrough := true } →
      (handleMessage hooks client msg).forwarded = [msg]
      ∧ (handleMessage hooks client msg).unsafeHookInvoked = false)
    ∧ (afterScanContinues hooks msg (combineScanResults results) →
      (combineScanResults results).is_safe = true →
      (handleMessage hooks client msg).forwarded = [msg]
      ∧ (handleMessage hooks client msg).unsafeHookInvoked = false) := by
  rw [handleMessage_of_gateAllows hooks client msg hgate,
    scanPipeline_of_scanned hooks client msg results hfrag hscan]
  constructor
  · intro h hh hres
    rw [dispositionStage_passthrough hooks msg (combineScanResults results) h hh hres]
    exact ⟨rfl, rfl⟩
  · intro hafter hsafe
    rw [dispositionStage_safe hooks msg (combineScanResults results) hafter hsafe]
    exact ⟨rfl, rfl⟩

/-- Closed instantiation of `c4_post_scan_override`: with an unsafe verdict
and a post-scan hook demanding passthrough, the original response is
forwarded and the installed unsafe-message hook is never invoked. -/
theorem c4_witness :
    (handleMessage afterTrueHooks (constClient unsafeVerdict) sampleResponse).forwarded
        = [sampleResponse]
    ∧ (handleMessage afterTrueHooks (constClient unsafeVerdict) sampleResponse).unsafeHookInvoked
        = false :=
  (c4_post_scan_override afterTrueHooks (constClient unsafeVerdict) sampleResponse
      [unsafeVerdict] (fun _ hg => nomatch hg) rfl rfl).1
    (fun _ _ => Except.ok { passthrough := true }) rfl rfl

/-- C1 (amended): when the combined verdict is unsafe, the post-scan stage
did not short-circuit, and the unsafe-message hook is absent or blocks
without a replacement, a message carrying a correlation identifier (a
Request, but also a Response, since responses carry the identifier of their
request) is answered with a synthesized error response, and a message
without one (a Notification) is dropped with nothing forwarded. -/
theorem c1_unsafe_default_resolution (hooks : CentureHooks) (client : ScanClient) (msg : Json)
    (results : List ScanResponse)
    (hgate : gateAllows hooks msg)
    (hfrag : ((extractContentForScanning msg).1.isEmpty
        && (extractContentForScanning msg).2.isEmpty) = false)
    (hscan : scanAll client (extractContentForScanning msg).1 (extractContentForScanning msg).2
        = Except.ok results)
    (hafter : afterScanContinues hooks msg (combineScanResults results))
    (hblock : unsafeHookBlocksWithoutReplace hooks msg (combineScanResults results))
    (hunsafeFlag : (combineScanResults results).is_safe = false) :
    (∀ idv, jsGet msg "id" = some idv →
      (handleMessage hooks client msg).forwarded =
        [createErrorResponse idv (jsGet msg "method") (combineScanResults results)])
    ∧ (jsGet msg "id" = none → (handleMessage hooks client msg).forwarded = []) := by
  rw [handleMessage_of_gateAllows hooks client msg hgate,
    scanPipeline_of_scanned hooks client msg results hfrag hscan,
    dispositionStage_continue hooks msg (combineScanResults results) hafter hunsafeFlag,
    unsafeStage_blocks hooks msg (combineScanResults results) hblock]
  constructor
  · intro idv hid
    show resolveUnsafeDefault msg (combineScanResults results) = _
    unfold resolveUnsafeDefault
    rw [hid]
  · intro hid
    show resolveUnsafeDefault msg (combineScanResults results) = _
    unfold resolveUnsafeDefault
    rw [hid]

/-- The claim as frozen is refuted at a concrete unsafe Response: the
message carries no method (it is not a Request) and carries a result, its
combined verdict is unsafe and no hooks are installed, yet the pipeline
forwards a synthesized error response instead of dropping it. -/
theorem c1_counterexample :
    jsGet sampleResponse "method" = none
    ∧ jsGet sampleResponse "result"
        = some (Json.obj [("content", Json.str "payload")])
    ∧ (combineScanResults [unsafeVerdict]).is_safe = false
    ∧ (handleMessage noHooks (constClient unsafeVerdict) sampleResponse).forwarded =
        [createErrorResponse (Json.num 3) none (combineScanResults [unsafeVerdict])]
    ∧ (handleMessage noHooks (constClient unsafeVerdict) sampleResponse).forwarded ≠ [] := by
  refine ⟨rfl, rfl, rfl, rfl, ?_⟩
  intro h
  exact nomatch h

/-- Closed instantiation of `c1_unsafe_default_resolution`: with no hooks
and an unsafe verdict, a notification is dropped and a request is answered
with the synthesized error response. -/
theorem c1_witness :
    (handleMessage noHooks (constClient unsafeVerdict) sampleNotification).forwarded = []
    ∧ (handleMessage noHooks (constClient unsafeVerdict) sampleRequest).forwarded =
        [createErrorResponse (Json.num 7) (some (Json.str "tools/call"))
          (combineScanResults [unsafeVerdict])] :=
  ⟨(c1_unsafe_default_resolution noHooks (constClient unsafeVerdict) sampleNotification
      [unsafeVerdict] (fun _ hg => nomatch hg) rfl rfl (fun _ hh => nomatch hh)
      (fun _ hh => nomatch hh) rfl).2 rfl,
   (c1_unsafe_default_resolution noHooks (constClient unsafeVerdict) sampleRequest
      [unsafeVerdict] (fun _ hg => nomatch hg) rfl rfl (fun _ hh => nomatch hh)
      (fun _ hh => nomatch hh) rfl).1 (Json.num 7) rfl⟩

lemma unsafeStage_exn (hooks : CentureHooks) (msg : Json) (combined : ScanResponse)
    (e : Thrown) (h : (unsafeStage hooks msg combined).exn = some e) :
    (unsafeStage hooks msg combined).forwarded = [] := by
  unfold unsafeStage at h ⊢
  cases hh : hooks.onUnsafeMessage with
  | none =>
      rw [hh] at h
      exact Option.noConfusion (show (none : Option Thrown) = some e from h)
  | some hk =>
      rw [hh] at h
      have h3 : (unsafeHookStep (hk msg combined) msg combined).exn = some e := h
      show (unsafeHookStep (hk msg combined) msg combined).forwarded = []
      cases hr : hk msg combined with
      | error e2 => rfl
      | ok r =>
          rw [hr] at h3
          exact Option.noConfusion (show (none : Option Thrown) = some e from h3)

lemma dispositionStage_exn (hooks : CentureHooks) (msg : Json) (combined : ScanResponse)
    (e : Thrown) (h : (dispositionStage hooks msg combined).exn = some e) :
    (dispositionStage hooks msg combined).forwarded = [] := by
  unfold dispositionStage at h ⊢
  cases ha : afterScanStage hooks msg combined with
  | error e2 => rfl
  | ok b =>
      rw [ha] at h
      cases b with
      | true => exact Option.noConfusion (show (none : Option Thrown) = some e from h)
      | false =>
          have h2 : (if combined.is_safe = true
              then ({ forwarded := [msg], unsafeInvoked := false, exn := none } : StageOut)
              else unsafeStage hooks msg combined).exn = some e := h
          show (if combined.is_safe = true
              then ({ forwarded := [msg], unsafeInvoked := false, exn := none } : StageOut)
              else unsafeStage hooks msg combined).forwarded = []
          by_cases hs : combined.is_safe = true
          · rw [if_pos hs] at h2
            exact Option.noConfusion (show (none : Option Thrown) = some e from h2)
          · rw [if_neg hs] at h2
            rw [if_neg hs]
            exact unsafeStage_exn hooks msg combined e h2

lemma scanPipeline_raised (hooks : CentureHooks) (client : ScanClient) (msg : Json)
    (e : Thrown) (h : (scanPipeline hooks client msg).raised = some e) :
    (scanPipeline hooks client msg).forwarded = []
    ∧ (scanPipeline hooks client msg).onerrorCalls = catchCalls e := by
  unfold scanPipeline at h ⊢
  by_cases hc : ((extractContentForScanning msg).1.isEmpty
      && (extractContentForScanning msg).2.isEmpty) = true
  · rw [if_pos hc] at h
    exact Option.noConfusion (show (none : Option Thrown) = some e from h)
  · rw [if_neg hc] at h ⊢
    cases hs : scanAll client (extractContentForScanning msg).1 (extractContentForScanning msg).2 with
    | error e2 =>
        rw [hs] at h
        have h2 : some e2 = some e := h
        cases h2
        exact ⟨rfl, rfl⟩
    | ok results =>
        rw [hs] at h
        have h2 : (dispositionStage hooks msg (combineScanResults results)).exn = some e := h
        constructor
        · exact dispositionStage_exn hooks msg (combineScanResults results) e h2
        · show (match (dispositionStage hooks msg (combineScanResults results)).exn with
              | some e3 => catchCalls e3
              | none => ([] : List Thrown)) = catchCalls e
          rw [h2]

lemma gateStep_raised (res : Except Thrown Bool) (hooks : CentureHooks) (client : ScanClient)
    (msg : Json) (e : Thrown) (h : (gateStep res hooks client msg).raised = some e) :
    (gateStep res hooks client msg).forwarded = []
    ∧ (gateStep res hooks client msg).onerrorCalls = catchCalls e := by
  unfold gateStep at h ⊢
  cases res with
  | error e2 =>
      have h2 : some e2 = some e := h
      cases h2
      exact ⟨rfl, rfl⟩
  | ok b =>
      cases b with
      | false => exact Option.noConfusion (show (none : Option Thrown) = some e from h)
      | true => exact scanPipeline_raised hooks client msg e h

/-- C3 (amended): whenever the inbound pipeline raises, nothing is forwarded
to the application, and the adapter error callback fires exactly once with
the thrown value when it is an Error instance — a thrown non-Error value is
re-raised without invoking the error callback. -/
theorem c3_error_propagation (hooks : CentureHooks) (client : ScanClient) (msg : Json)
    (e : Thrown) (h : (handleMessage hooks client msg).raised = some e) :
    (handleMessage hooks client msg).forwarded = []
    ∧ (handleMessage hooks client msg).onerrorCalls
        = (if e.isErrorInstance then [e] else []) := by
  unfold handleMessage at h ⊢
  cases hg : hooks.shouldScanMessage with
  | none =>
      rw [hg] at h
      exact scanPipeline_raised hooks client msg e h
  | some g =>
      rw [hg] at h
      exact gateStep_raised (g msg) hooks client msg e h

/-- The claim as frozen is refuted at a concrete input: a pre-scan hook
throwing a non-Error value makes the pipeline raise, yet the adapter error
callback is never invoked with it. -/
theorem c3_counterexample :
    (handleMessage throwingGateHooks (constClient safeVerdict) sampleResponse).raised
        = some (Thrown.nonError (Json.str "boom"))
    ∧ (handleMessage throwingGateHooks (constClient safeVerdict) sampleResponse).onerrorCalls
        = []
    ∧ (handleMessage throwingGateHooks (constClient safeVerdict) sampleResponse).forwarded
        = [] :=
  ⟨rfl, rfl, rfl⟩

/-- Closed instantiation of `c3_error_propagation`: a failing image-and-text
scan raises an Error instance, the error callback fires once with it, and no
message reaches the application. -/
theorem c3_witness :
    (handleMessage noHooks (failingClient (Thrown.errorInstance "network error"))
        sampleResponse).forwarded = []
    ∧ (handleMessage noHooks (failingClient (Thrown.errorInstance "network error"))
        sampleResponse).onerrorCalls = [Thrown.errorInstance "network error"] :=
  c3_error_propagation noHooks (failingClient (Thrown.errorInstance "network error"))
    sampleResponse (Thrown.errorInstance "network error") rfl

lemma resolveUnsafeDefault_length (msg : Json) (combined : ScanResponse) :
    (resolveUnsafeDefault msg combined).length ≤ 1 := by
  unfold resolveUnsafeDefault
  split <;> simp

lemma applyUnsafeResult_length (msg : Json) (combined : ScanResponse)
    (r : OnUnsafeMessageResult) :
    (applyUnsafeResult msg combined r).length ≤ 1 := by
  unfold applyUnsafeResult
  split
  · simp
  · split
    · simp
    · exact resolveUnsafeDefault_length msg combined

lemma unsafeHookStep_length (res : Except Thrown OnUnsafeMessageResult) (msg : Json)
    (combined : ScanResponse) : (unsafeHookStep res msg combined).forwarded.length ≤ 1 := by
  unfold unsafeHookStep
  split
  · simp
  · exact applyUnsafeResult_length msg combined _

lemma unsafeStage_length (hooks : CentureHooks) (msg : Json) (combined : ScanResponse) :
    (unsafeStage hooks msg combined).forwarded.length ≤ 1 := by
  unfold unsafeStage
  split
  · exact unsafeHookStep_length _ msg combined
  · exact resolveUnsafeDefault_length msg combined

lemma dispositionStage_length (hooks : CentureHooks) (msg : Json) (combined : ScanResponse) :
    (dispositionStage hooks msg combined).forwarded.length ≤ 1 := by
  unfold dispositionStage
  split
  · simp
  · simp
  · split
    · simp
    · exact unsafeStage_length hooks msg combined

lemma scanPipeline_length (hooks : CentureHooks) (client : ScanClient) (msg : Json) :
    (scanPipeline hooks client msg).forwarded.length ≤ 1 := by
  unfold scanPipeline
  split
  · simp
  · split
    · simp
    · exact dispositionStage_length hooks msg _

lemma gateStep_length (res : Except Thrown Bool) (hooks : CentureHooks) (client : ScanClient)
    (msg : Json) : (gateStep res hooks client msg).forwarded.length ≤ 1 := by
  unfold gateStep
  split
  · simp
  · split
    · exact scanPipeline_length hooks client msg
    · simp

lemma handleMessage_length (hooks : CentureHooks) (client : ScanClient) (msg : Json) :
    (handleMessage hooks client msg).forwarded.length ≤ 1 := by
  unfold handleMessage
  split
  · exact gateStep_length _ hooks client msg
  · exact scanPipeline_length hooks client msg

/-- C8: an inbound message whose processing raises no error leads to at most
one application-visible message — the application callback is invoked at
most once per inbound message. -/
theorem c8_single_disposition (hooks : CentureHooks) (client : ScanClient) (msg : Json)
    (_hok : (handleMessage hooks client msg).raised = none) :
    (handleMessage hooks client msg).forwarded.length ≤ 1 :=
  handleMessage_length hooks client msg

/-- Closed instantiation of `c8_single_disposition` on a successfully
scanned safe response. -/
theorem c8_witness :
    (handleMessage noHooks (constClient safeVerdict) sampleResponse).raised = none
    ∧ (handleMessage noHooks (constClient safeVerdict) sampleResponse).forwarded.length ≤ 1 :=
  ⟨rfl, c8_single_disposition noHooks (constClient safeVerdict) sampleResponse rfl⟩

lemma extractItems_eq_filterMap (items : List Json) :
    extractItems items = (items.filterMap textFragOfItem, items.filterMap imageFragOfItem) := by
  induction items with
  | nil => rfl
  | cons item rest ih =>
      simp only [extractItems, List.filterMap_cons, textFragOfItem, imageFragOfItem, ih]
      split_ifs <;> simp_all

lemma extractItems_all_empty (items : List Json)
    (h : ∀ item ∈ items, item = emptyTextItem ∨ item = emptyImageItem) :
    extractItems items = ([], []) := by
  induction items with
  | nil => rfl
  | cons item rest ih =>
      have hh := h item (List.mem_cons_self item rest)
      have ih2 := ih (fun x hx => h x (List.mem_cons_of_mem item hx))
      rcases hh with rfl | rfl
      · exact (show extractItems (emptyTextItem :: rest) = extractItems rest from rfl).trans ih2
      · exact (show extractItems (emptyImageItem :: rest) = extractItems rest from rfl).trans ih2

lemma scanPipeline_noContent (hooks : CentureHooks) (client : ScanClient) (msg : Json)
    (hcond : ((extractContentForScanning msg).1.isEmpty
        && (extractContentForScanning msg).2.isEmpty) = true) :
    scanPipeline hooks client msg =
      { forwarded := [msg], extractInvoked := true, scanTextCalls := [], scanImageCalls := [],
        unsafeHookInvoked := false, onerrorCalls := [], raised := none } := by
  unfold scanPipeline
  rw [hcond]
  rfl

/-- C7 (amended): the extraction function satisfies: for a truthy result
whose content is an array, each text-typed item with a truthy (non-empty)
text value yields one text fragment, each image-typed item with a truthy
data value yields one image fragment, each resource-typed item with a
truthy blob and recognized image MIME type yields one image fragment, and
all other items are ignored; a truthy result whose content is a non-empty
plain string yields that string as one text fragment; any other truthy
result is serialized whole into one text fragment; with the result absent
or falsy, a truthy params payload is serialized into exactly one text
fragment; with neither, no fragments are produced. -/
theorem c7_extraction (msg : Json) :
    (∀ r items, jsGet msg "result" = some r → r.truthy = true →
      jsGet r "content" = some (Json.arr items) →
      extractContentForScanning msg =
        (items.filterMap textFragOfItem, items.filterMap imageFragOfItem))
    ∧ (∀ r s, jsGet msg "result" = some r → r.truthy = true →
      jsGet r "content" = some (Json.str s) → s ≠ "" →
      extractContentForScanning msg = ([Json.str s], []))
    ∧ (∀ r, jsGet msg "result" = some r → r.truthy = true →
      (∀ items, jsGet r "content" ≠ some (Json.arr items)) →
      (∀ s, jsGet r "content" = some (Json.str s) → s = "") →
      extractContentForScanning msg = ([Json.str (Json.stringify r)], []))
    ∧ (∀ p, resultFalsyOrAbsent msg → jsGet msg "params" = some p → p.truthy = true →
      extractContentForScanning msg = ([Json.str (Json.stringify p)], []))
    ∧ (resultFalsyOrAbsent msg → paramsFalsyOrAbsent msg →
      extractContentForScanning msg = ([], [])) := by
  have hparams : ∀ p, jsGet msg "params" = some p → p.truthy = true →
      extractFromParams msg = ([Json.str (Json.stringify p)], []) := by
    intro p hp hpt
    unfold extractFromParams
    rw [hp]
    show (if p.truthy = true then ([Json.str (Json.stringify p)], ([] : List Json))
        else ([], [])) = _
    rw [if_pos hpt]
  have hparamsNone : paramsFalsyOrAbsent msg → extractFromParams msg = ([], []) := by
    intro hpfa
    unfold extractFromParams
    cases hp : jsGet msg "params" with
    | none => rfl
    | some p =>
        show (if p.truthy = true then ([Json.str (Json.stringify p)], ([] : List Json))
            else ([], [])) = _
        rw [if_neg]
        rw [hpfa p hp]
        intro hx
        cases hx
  refine ⟨?_, ?_, ?_, ?_, ?_⟩
  · intro r items hres hrt hcon
    unfold extractContentForScanning
    rw [hres]
    show resultStep r msg = _
    unfold resultStep
    rw [if_pos hrt, hcon]
    exact extractItems_eq_filterMap items
  · intro r s hres hrt hcon hs
    unfold extractContentForScanning
    rw [hres]
    show resultStep r msg = _
    unfold resultStep
    rw [if_pos hrt, hcon]
    show (if s = "" then ([Json.str (Json.stringify r)], []) else ([Json.str s], [])) = _
    rw [if_neg hs]
  · intro r hres hrt hnarr hnstr
    unfold extractContentForScanning
    rw [hres]
    show resultStep r msg = _
    unfold resultStep
    rw [if_pos hrt]
    cases hcon : jsGet r "content" with
    | none => rfl
    | some c =>
        cases c with
        | null => rfl
        | bool b => rfl
        | num n => rfl
        | str s =>
            have hse := hnstr s hcon
            show (if s = "" then ([Json.str (Json.stringify r)], []) else ([Json.str s], [])) = _
            rw [if_pos hse]
        | arr items => exact absurd hcon (hnarr items)
        | obj fields => rfl
  · intro p hrfa hp hpt
    unfold extractContentForScanning
    cases hres : jsGet msg "result" with
    | none => exact hparams p hp hpt
    | some r =>
        show resultStep r msg = _
        unfold resultStep
        rw [if_neg]
        · exact hparams p hp hpt
        · rw [hrfa r hres]; intro hx; cases hx
  · intro hrfa hpfa
    unfold extractContentForScanning
    cases hres : jsGet msg "result" with
    | none => exact hparamsNone hpfa
    | some r =>
        show resultStep r msg = _
        unfold resultStep
        rw [if_neg]
        · exact hparamsNone hpfa
        · rw [hrfa r hres]; intro hx; cases hx

/-- The claim as frozen is refuted at a concrete input: a content-array item
of type text that carries a text field whose value is the empty string
yields no fragment at all, so the extraction result is empty rather than
holding one text fragment. -/
theorem c7_counterexample :
    jsGet emptyTextItem "type" = some (Json.str "text")
    ∧ jsGet emptyTextItem "text" = some (Json.str "")
    ∧ jsGet (Json.obj [("content", Json.arr [emptyTextItem])]) "content"
        = some (Json.arr [emptyTextItem])
    ∧ jsGet emptyTextMessage "result" = some (Json.obj [("content", Json.arr [emptyTextItem])])
    ∧ extractContentForScanning emptyTextMessage = ([], []) :=
  ⟨rfl, rfl, rfl, rfl, rfl⟩

/-- Closed instantiation of `c7_extraction` on a mixed content array: the
truthy text, image and recognized image resource items each contribute their
fragment, the unrecognised item contributes none. -/
theorem c7_witness :
    extractContentForScanning mixedContentMessage =
      ([Json.str "hi"], [Json.str "img64", Json.str "b64"]) :=
  (c7_extraction mixedContentMessage).1 mixedContentResult mixedContentItems rfl rfl rfl

/-- C10: content-array extraction tests fields for truthiness rather than
presence — text items with an empty text string and image items with an
empty data string contribute no fragment, so a message whose result content
array consists only of such items yields zero fragments and is forwarded to
the application unchanged with zero scan calls. -/
theorem c10_truthiness_pass_through (hooks : CentureHooks) (client : ScanClient) (msg : Json)
    (r : Json) (items : List Json)
    (hgate : gateAllows hooks msg)
    (hres : jsGet msg "result" = some r)
    (hrt : r.truthy = true)
    (hcontent : jsGet r "content" = some (Json.arr items))
    (hitems : ∀ item ∈ items, item = emptyTextItem ∨ item = emptyImageItem) :
    extractContentForScanning msg = ([], [])
    ∧ (handleMessage hooks client msg).forwarded = [msg]
    ∧ (handleMessage hooks client msg).scanTextCalls = []
    ∧ (handleMessage hooks client msg).scanImageCalls = [] := by
  have hext : extractContentForScanning msg = ([], []) := by
    unfold extractContentForScanning
    rw [hres]
    show resultStep r msg = _
    unfold resultStep
    rw [if_pos hrt, hcontent]
    exact extractItems_all_empty items hitems
  have hcond : ((extractContentForScanning msg).1.isEmpty
      && (extractContentForScanning msg).2.isEmpty) = true := by
    rw [hext]
    rfl
  rw [handleMessage_of_gateAllows hooks client msg hgate,
    scanPipeline_noContent hooks client msg hcond]
  exact ⟨hext, rfl, rfl, rfl⟩

/-- Closed instantiation of `c10_truthiness_pass_through`: a response whose
content array holds one empty text item and one empty image item is
forwarded unchanged with zero scan calls. -/
theorem c10_witness :
    extractContentForScanning allEmptyItemsMessage = ([], [])
    ∧ (handleMessage noHooks (constClient unsafeVerdict) allEmptyItemsMessage).forwarded
        = [allEmptyItemsMessage]
    ∧ (handleMessage noHooks (constClient unsafeVerdict) allEmptyItemsMessage).scanTextCalls = []
    ∧ (handleMessage noHooks (constClient unsafeVerdict) allEmptyItemsMessage).scanImageCalls
        = [] :=
  c10_truthiness_pass_through noHooks (constClient unsafeVerdict) allEmptyItemsMessage
    (Json.obj [("content", Json.arr [emptyTextItem, emptyImageItem])])
    [emptyTextItem, emptyImageItem]
    (fun _ hg => nomatch hg) rfl rfl rfl
    (fun item hmem => by
      rcases List.mem_cons.mp hmem with h1 | h2
      · exact Or.inl h1
      · rcases List.mem_cons.mp h2 with h3 | h4
        · exact Or.inr h3
        · exact absurd h4 (List.not_mem_nil item))
